import Mathlib

/-!
Verification of the REMAA concept-extraction pipeline
(src/Facs2.0/extractor_pdfs_v2.0.py) against its natural-language
specification.

Shallow embedding conventions:
- a table cell (which in Python is either a string or None) is an
  Option String; a table row is a list of cells;
- Python float values are modelled as rational numbers (the validator
  arithmetic is plain field arithmetic on decimal inputs);
- Python truthiness of a cell (None and the empty string are falsy) is
  the function truthy below; Python str(x) applied to a cell is cellStr
  (str(None) is the string "None");
- the external collaborators (pdfplumber text and table extraction),
  which may raise, are modelled with Except: a Documento carries the
  outcome of each collaborator call;
- error codes, which the source represents as strings (the numeric
  incoherence one carrying two formatted numbers), are modelled as the
  inductive type CodigoError, the incoherence constructor carrying the
  expected and actual amounts.
-/

/-! ## Python-style string and cell primitives -/

/-- A table cell as delivered by the table extractor: either absent
(Python None) or a string. -/
abbrev Cell := Option String

/-- A table row: an ordered sequence of optional text cells. -/
abbrev Fila := List Cell

/-- Python truthiness of a cell: None and the empty string are falsy. -/
def truthy : Cell → Bool
  | none => false
  | some s => s != ""

/-- Python str() applied to a cell; str(None) is the string "None". -/
def cellStr : Cell → String
  | none => "None"
  | some s => s

/-- Python fila[0] on a non-empty row. On an empty row Python would raise
IndexError; theorems about the scanner therefore assume non-empty rows. -/
def cell0 (f : Fila) : Cell := f.getD 0 none

/-- Python str.strip(): drop leading and trailing whitespace. -/
def pyStrip (s : String) : String :=
  String.mk (((s.data.dropWhile Char.isWhitespace).reverse.dropWhile Char.isWhitespace).reverse)

/-- Python str.upper() (ASCII letters; the template tokens are ASCII). -/
def pyUpper (s : String) : String := String.mk (s.data.map Char.toUpper)

/-- Python sep.join(l). -/
def pyJoin (sep : String) : List String → String
  | [] => ""
  | [s] => s
  | s :: t :: resto => s ++ sep ++ pyJoin sep (t :: resto)

/-- ASCII digit, as matched by the source's regular expressions. -/
def esDigito (c : Char) : Bool := '0' ≤ c && c ≤ '9'

/-- ASCII uppercase letter, the character class of the key pattern. -/
def esMayuscula (c : Char) : Bool := 'A' ≤ c && c ≤ 'Z'

/-- ASCII lowercase letter. -/
def esMinuscula (c : Char) : Bool := 'a' ≤ c && c ≤ 'z'

/-- Regex word character (the class behind the word-boundary assertion). -/
def esCharPalabra (c : Char) : Bool :=
  esMayuscula c || esMinuscula c || esDigito c || c == '_'

/-- Substring containment on character lists (Python's "sub in s"). -/
def subEn (sub : List Char) : List Char → Bool
  | [] => sub.isPrefixOf []
  | c :: t => sub.isPrefixOf (c :: t) || subEn sub t

/-! ## Error codes

The source uses string literals; each constructor is named after its
string. The incoherence code carries the expected and actual amounts,
which the source interpolates into the string. -/

/-- Error and warning codes produced by the validators and the document
processor. -/
inductive CodigoError where
  | claveVacia                -- "CLAVE_VACIA"
  | claveConEspacios          -- "CLAVE_CON_ESPACIOS"
  | claveFormatoInvalido      -- "CLAVE_FORMATO_INVALIDO"
  | unidadVacia               -- "UNIDAD_VACIA"
  | unidadDemasiadoLarga      -- "UNIDAD_DEMASIADO_LARGA"
  | unidadFormatoSospechoso   -- "UNIDAD_FORMATO_SOSPECHOSO"
  | conceptoVacio             -- "CONCEPTO_VACIO"
  | conceptoDemasiadoCorto    -- "CONCEPTO_DEMASIADO_CORTO"
  | cantidadInvalida          -- "CANTIDAD_INVALIDA"
  | precioInvalido            -- "PRECIO_INVALIDO"
  | importeInvalido           -- "IMPORTE_INVALIDO"
  | incoherenciaNumerica (esperado real : ℚ)  -- "INCOHERENCIA_NUMERICA (Esperado: _, Real: _)"
  | plantillaNoValida         -- "PLANTILLA_NO_VALIDA"
  | sinClavesValidas          -- "SIN_CLAVES_VALIDAS"
  | sinConceptos              -- "SIN_CONCEPTOS"
  | errorProcesamiento        -- "ERROR_PROCESAMIENTO"
deriving DecidableEq

/-! ## ValidadorPlantillaREMAA (template gate), lines 109-141 -/

/-- ValidadorPlantillaREMAA.PALABRAS_CLAVE_REMAA. -/
def PALABRAS_CLAVE_REMAA : List String := ["CLAVE", "CONCEPTO", "UNID", "P.U.", "IMPORTE"]

/-- The tokens of PALABRAS_CLAVE_REMAA found in the upper-cased text
(the palabras_encontradas list built by the loop in validar). -/
def palabras_encontradas (texto_completo : String) : List String :=
  PALABRAS_CLAVE_REMAA.filter (fun p => subEn p.data (pyUpper texto_completo).data)

/-- The tokens of PALABRAS_CLAVE_REMAA missing from the upper-cased text
(the palabras_faltantes list built by the loop in validar). -/
def palabras_faltantes (texto_completo : String) : List String :=
  PALABRAS_CLAVE_REMAA.filter (fun p => !subEn p.data (pyUpper texto_completo).data)

/-- ValidadorPlantillaREMAA.validar, lines 116-141. -/
def validar_plantilla_remaa (texto_completo : String) : Bool × String :=
  if (palabras_encontradas texto_completo).length = PALABRAS_CLAVE_REMAA.length then
    (true, "✓ Plantilla REMAA válida")
  else
    (false, "✗ PLANTILLA_NO_VALIDA - Faltan: " ++ pyJoin ", " (palabras_faltantes texto_completo))

/-! ## ValidadorClave (key pattern), lines 144-184 -/

/-- Full match of the anchored pattern of 2-4 uppercase letters, a
hyphen and exactly 3 digits (PATRON_CLAVE). The greedy quantifier with
backtracking is equivalent to taking the maximal uppercase run. -/
def matchClave (cs : List Char) : Bool :=
  let r := cs.takeWhile esMayuscula
  decide (2 ≤ r.length) && decide (r.length ≤ 4) &&
    (match cs.drop r.length with
     | '-' :: ds => decide (ds.length = 3) && ds.all esDigito
     | _ => false)

/-- ValidadorClave.es_clave_valida, lines 153-168. -/
def es_clave_valida (texto : String) : Bool :=
  if texto = "" then false
  else matchClave (pyStrip texto).data

/-- One attempt of PATRON_CLAVE_EN_TEXTO at the current position (the
word boundary before the position is checked by the caller). Returns
the matched key and the number of characters consumed. -/
def matchClaveAqui (cs : List Char) : Option (String × ℕ) :=
  let r := cs.takeWhile esMayuscula
  if 2 ≤ r.length ∧ r.length ≤ 4 then
    match cs.drop r.length with
    | '-' :: resto =>
      let ds := resto.take 3
      if ds.length = 3 ∧ ds.all esDigito = true ∧
          (match resto.drop 3 with | [] => true | c :: _ => !esCharPalabra c) = true then
        some (String.mk (r ++ '-' :: ds), r.length + 4)
      else none
    | _ => none
  else none

/-- The scan of re.findall for PATRON_CLAVE_EN_TEXTO: try each position
at which a word boundary holds, resuming after the end of each match.
The scan walks the text one character at a time; saltar counts the
characters of the current match still to be stepped over, so that the
recursion is structural and prev always holds the previously consumed
character (the boundary test asks whether it is a word character). -/
def buscarClaves (prev : Option Char) (saltar : ℕ) : List Char → List String
  | [] => []
  | c :: resto =>
    match saltar with
    | n + 1 => buscarClaves (some c) n resto
    | 0 =>
      let frontera := match prev with | none => true | some p => !esCharPalabra p
      if frontera then
        match matchClaveAqui (c :: resto) with
        | some (clave, n) => clave :: buscarClaves (some c) (n - 1) resto
        | none => buscarClaves (some c) 0 resto
      else buscarClaves (some c) 0 resto

/-- ValidadorClave.extraer_claves, lines 170-184. -/
def extraer_claves (texto : String) : List String :=
  if texto = "" then []
  else buscarClaves none 0 texto.data

/-! ## ValidadorSemantico (per-field checks), lines 187-236 -/

/-- ValidadorSemantico.validar_clave, lines 192-204. -/
def validar_clave (clave : String) : Bool × Option CodigoError :=
  if clave = "" ∨ (pyStrip clave).length = 0 then (false, some .claveVacia)
  else if (pyStrip clave).data.contains ' ' then (false, some .claveConEspacios)
  else if !es_clave_valida (pyStrip clave) then (false, some .claveFormatoInvalido)
  else (true, none)

/-- Full match of the anchored pattern of one or more uppercase letters
followed by exactly one digit, used by the unit check for shorthands
such as M2 or M3. The greedy quantifier is equivalent to taking the
maximal uppercase run. -/
def matchUnidadExcepcion (cs : List Char) : Bool :=
  let r := cs.takeWhile esMayuscula
  decide (1 ≤ r.length) &&
    (match cs.drop r.length with
     | [d] => esDigito d
     | _ => false)

/-- ValidadorSemantico.validar_unidad, lines 206-222. -/
def validar_unidad (unidad : String) : Bool × Option CodigoError :=
  if unidad = "" ∨ (pyStrip unidad).length = 0 then (false, some .unidadVacia)
  else
    let unidad_limpia := pyStrip unidad
    if unidad_limpia.length > 5 then (false, some .unidadDemasiadoLarga)
    else if unidad_limpia.data.any esDigito && !matchUnidadExcepcion unidad_limpia.data then
      (false, some .unidadFormatoSospechoso)
    else (true, none)

/-- ValidadorSemantico.validar_concepto, lines 224-236. -/
def validar_concepto (concepto : String) : Bool × Option CodigoError :=
  if concepto = "" ∨ (pyStrip concepto).length = 0 then (false, some .conceptoVacio)
  else if (pyStrip concepto).length < 10 then (false, some .conceptoDemasiadoCorto)
  else (true, none)

/-! ## ValidadorNumerico (coherence), lines 239-280 -/

/-- ValidadorNumerico.TOLERANCIA_REDONDEO; the source writes the float
literal 0.02, modelled exactly as the rational 2/100. -/
def TOLERANCIA_REDONDEO : ℚ := 2 / 100

/-- ValidadorNumerico.validar_coherencia, lines 246-280. -/
def validar_coherencia (cantidad precio_unitario importe : ℚ) : Bool × Option CodigoError :=
  if cantidad ≤ 0 then (false, some .cantidadInvalida)
  else if precio_unitario ≤ 0 then (false, some .precioInvalido)
  else if importe ≤ 0 then (false, some .importeInvalido)
  else
    let importe_calculado := cantidad * precio_unitario
    let diferencia := |importe - importe_calculado|
    let tolerancia := importe_calculado * TOLERANCIA_REDONDEO
    if diferencia > tolerancia then
      (false, some (.incoherenciaNumerica importe_calculado importe))
    else (true, none)

/-! ## Record types, lines 76-102 -/

/-- ConceptoExtraido, lines 76-88. -/
structure ConceptoExtraido where
  clave : String
  concepto_original : String
  unidad : String
  cantidad : ℚ
  precio_unitario : ℚ
  importe : ℚ
  origen_pdf : String
  numero_linea : ℕ
  errores : List CodigoError := []
  advertencias : List CodigoError := []
deriving DecidableEq

/-- ResultadoValidacionPDF, lines 91-102. -/
structure ResultadoValidacionPDF where
  nombre_archivo : String
  es_valido : Bool
  es_plantilla_remaa : Bool
  conceptos_extraidos : ℕ := 0
  conceptos_validos : ℕ := 0
  errores_criticos : ℕ := 0
  advertencias : ℕ := 0
  tipos_error : List CodigoError := []
  mensaje : String := ""
deriving DecidableEq

/-! ## Numeric cell cleaner, lines 428-453 -/

/-- Value of a run of ASCII digits, as read by float(). -/
def digitosANat (ds : List Char) : ℕ :=
  ds.foldl (fun a c => a * 10 + (c.toNat - '0'.toNat)) 0

/-- Value of the token matched at the current position: the maximal
digit run, an optional dot, and the following maximal digit run, with
an optional leading minus sign already consumed by the caller. -/
def valorToken (cs : List Char) (neg : Bool) : ℚ :=
  let enteros := cs.takeWhile esDigito
  let resto := cs.dropWhile esDigito
  let decimales := match resto with
    | '.' :: r => r.takeWhile esDigito
    | _ => []
  let v : ℚ := (digitosANat (enteros ++ decimales) : ℚ) / ((10 : ℚ) ^ decimales.length)
  if neg then -v else v

/-- re.search for an optionally signed decimal token: the leftmost
position where either a digit starts, or a minus sign immediately
followed by a digit starts, wins. -/
def buscarNumero : List Char → Option ℚ
  | [] => none
  | c :: resto =>
    if esDigito c then some (valorToken (c :: resto) false)
    else if c == '-' && (match resto with | d :: _ => esDigito d | [] => false) then
      some (valorToken resto true)
    else buscarNumero resto

/-- The strip-and-replace preprocessing of limpiar_valor_numerico
(lines 443-444): strip, then remove every dollar sign, comma and
space. -/
def caracteresLimpios (s : String) : List Char :=
  (pyStrip s).data.filter (fun c => !(c == '$') && !(c == ',') && !(c == ' '))

/-- ExtractorConceptosREMAA.limpiar_valor_numerico, lines 428-453:
strip, remove dollar signs, commas and spaces, then search for the
first signed decimal token. Total by construction (the source's
try/except never fires on string input). -/
def limpiar_valor_numerico (texto : Cell) : Option ℚ :=
  if truthy texto = false then none
  else buscarNumero (caracteresLimpios (cellStr texto))

/-! ## Multiline reconstructor, lines 384-425

The Python loop walks an absolute row index fila_actual starting at
inicio + 1 and finally returns fila_actual - 1. The embedding's loop
recurses structurally over the row suffix after the start row and
returns the number of continuation rows consumed; the wrapper adds it
to inicio, which equals the Python value (inicio + 1 + consumed) - 1. -/

/-- The while loop of reconstruir_concepto_multilinea (lines 405-422),
over the rows after the start row: returns the accumulated fragments
and the number of rows consumed. -/
def reconLoop : List Fila → List String → List String × ℕ
  | [], partes => (partes, 0)
  | fila :: resto, partes =>
    if truthy (cell0 fila) && es_clave_valida (pyStrip (cellStr (cell0 fila))) then
      (partes, 0)
    else if (!truthy (cell0 fila) || pyStrip (cellStr (cell0 fila)) == "") &&
        decide (fila.length > 1) && truthy (fila.getD 1 none) then
      let texto_adicional := pyStrip (cellStr (fila.getD 1 none))
      if texto_adicional != "" then
        let r := reconLoop resto (partes ++ [texto_adicional])
        (r.1, r.2 + 1)
      else (partes, 0)
    else (partes, 0)

/-- ExtractorConceptosREMAA.reconstruir_concepto_multilinea,
lines 384-425. The caller guarantees inicio < filas.length (Python
would raise on filas[inicio] otherwise). -/
def reconstruir_concepto_multilinea (filas : List Fila) (inicio : ℕ) : String × ℕ :=
  let fila0 := filas.getD inicio []
  let partes0 :=
    if decide (fila0.length > 1) && truthy (fila0.getD 1 none) then
      [pyStrip (cellStr (fila0.getD 1 none))]
    else []
  let r := reconLoop (filas.drop (inicio + 1)) partes0
  (pyJoin " " r.1, inicio + r.2)

/-! ## Table scanner, lines 456-553 -/

/-- One "if not es_valida: concepto.errores.append(error)" step of
aplicar_validaciones. -/
def agregarError (c : ConceptoExtraido) (r : Bool × Option CodigoError) : ConceptoExtraido :=
  if r.1 then c else { c with errores := c.errores ++ r.2.toList }

/-- One "if not es_valida: concepto.advertencias.append(error)" step of
aplicar_validaciones. -/
def agregarAdvertencia (c : ConceptoExtraido) (r : Bool × Option CodigoError) : ConceptoExtraido :=
  if r.1 then c else { c with advertencias := c.advertencias ++ r.2.toList }

/-- ExtractorConceptosREMAA.aplicar_validaciones, lines 525-552. The
key and unit failures go to errores; the description failure goes to
advertencias (line 543); the coherence failure goes to errores. -/
def aplicar_validaciones (concepto : ConceptoExtraido) : ConceptoExtraido :=
  let c1 := agregarError concepto (validar_clave concepto.clave)
  let c2 := agregarError c1 (validar_unidad c1.unidad)
  let c3 := agregarAdvertencia c2 (validar_concepto c2.concepto_original)
  agregarError c3 (validar_coherencia c3.cantidad c3.precio_unitario c3.importe)

/-- The unit read from column 2 of the start row (line 497): empty
when the row is too short or the cell is falsy. -/
def unidadCruda (tabla : List Fila) (i : ℕ) : String :=
  let fila := tabla.getD i []
  if decide (fila.length > 2) && truthy (fila.getD 2 none) then
    pyStrip (cellStr (fila.getD 2 none))
  else ""

/-- The optional quantity read from column 3 of the start row
(line 498): absent when the row is too short or the cell does not
clean to a number. -/
def cantidadCruda (tabla : List Fila) (i : ℕ) : Option ℚ :=
  if (tabla.getD i []).length > 3 then limpiar_valor_numerico ((tabla.getD i []).getD 3 none)
  else none

/-- The optional unit price read from column 4 (line 499). -/
def precioCrudo (tabla : List Fila) (i : ℕ) : Option ℚ :=
  if (tabla.getD i []).length > 4 then limpiar_valor_numerico ((tabla.getD i []).getD 4 none)
  else none

/-- The optional amount read from column 5 (line 500). -/
def importeCrudo (tabla : List Fila) (i : ℕ) : Option ℚ :=
  if (tabla.getD i []).length > 5 then limpiar_valor_numerico ((tabla.getD i []).getD 5 none)
  else none

/-- The record built from the start row at index i of the table (the
body of the main loop of procesar_tabla_pdf, lines 489-515). Missing
trailing columns yield the empty unit and absent numbers; an absent or
unparsable number is stored as zero ("cantidad or 0" where Python None
and 0.0 both become 0). -/
def construirConcepto (tabla : List Fila) (nombre_archivo : String) (i : ℕ) : ConceptoExtraido :=
  aplicar_validaciones
    { clave := pyStrip (cellStr (cell0 (tabla.getD i []))),
      concepto_original := (reconstruir_concepto_multilinea tabla i).1,
      unidad := unidadCruda tabla i,
      cantidad := (cantidadCruda tabla i).getD 0,
      precio_unitario := (precioCrudo tabla i).getD 0,
      importe := (importeCrudo tabla i).getD 0,
      origen_pdf := nombre_archivo, numero_linea := i + 1 }

/-- The header-skipping loop of procesar_tabla_pdf, lines 475-478. -/
def buscarInicio (tabla : List Fila) (i : ℕ) : ℕ :=
  if h : i < tabla.length then
    let fila := tabla.get ⟨i, h⟩
    if truthy (cell0 fila) && es_clave_valida (pyStrip (cellStr (cell0 fila))) then i
    else buscarInicio tabla (i + 1)
  else i
termination_by tabla.length - i

/-- The main loop of procesar_tabla_pdf, lines 481-521: emit a record
at each row holding a valid key and resume one past the last row the
reconstructor consumed. -/
def procesarFilas (tabla : List Fila) (nombre_archivo : String) (i : ℕ) :
    List ConceptoExtraido :=
  if h : i < tabla.length then
    let fila := tabla.get ⟨i, h⟩
    if !truthy (cell0 fila) || !es_clave_valida (pyStrip (cellStr (cell0 fila))) then
      procesarFilas tabla nombre_archivo (i + 1)
    else
      let c := construirConcepto tabla nombre_archivo i
      let ultima_fila := (reconstruir_concepto_multilinea tabla i).2
      c :: procesarFilas tabla nombre_archivo (ultima_fila + 1)
  else []
termination_by tabla.length - i
decreasing_by
  · omega
  · simp only [reconstruir_concepto_multilinea]
    omega

/-- ExtractorConceptosREMAA.procesar_tabla_pdf, lines 456-522. -/
def procesar_tabla_pdf (tabla : List Fila) (nombre_archivo : String) :
    List ConceptoExtraido :=
  if tabla = [] ∨ tabla.length < 2 then []
  else procesarFilas tabla nombre_archivo (buscarInicio tabla 0)

/-! ## Document model and processor, lines 331-381 and 555-640

A Documento records the outcomes of the external collaborator calls:
texto_paginas is the first pdfplumber.open pass (either an exception,
or the per-page extract_text results), and paginas is the second open
(either an exception, or the pages, each carrying the outcomes of its
two extract_table attempts). -/

/-- A page of the second pdfplumber pass: the outcome of
extract_table with the line-strategy configuration, and the outcome of
the plain extract_table fallback. -/
structure Pagina where
  tabla_config : Except String (Option (List Fila))
  tabla_simple : Except String (Option (List Fila))

/-- A document: its base name and the outcomes of the collaborator
calls made on it. -/
structure Documento where
  nombre_archivo : String
  texto_paginas : Except String (List (Option String))
  paginas : Except String (List Pagina)

/-- ExtractorConceptosREMAA.extraer_texto_completo_pdf, lines 331-352:
join the truthy page texts with newlines; any exception is caught
inside and yields None. -/
def extraer_texto_completo_pdf (doc : Documento) : Option String :=
  match doc.texto_paginas with
  | .error _ => none
  | .ok textos =>
    some (pyJoin "\n" (textos.filterMap (fun t =>
      match t with
      | some s => if s = "" then none else some s
      | none => none)))

/-- ExtractorConceptosREMAA.extraer_tabla_con_contexto, lines 355-381:
first extraction attempt, plain fallback when it is falsy, empty list
when either attempt raises or both are falsy. -/
def extraer_tabla_con_contexto (pagina : Pagina) : List Fila :=
  match pagina.tabla_config with
  | .error _ => []
  | .ok resultado1 =>
    let tabla1 := match resultado1 with | none => [] | some t => t
    if tabla1 = [] then
      match pagina.tabla_simple with
      | .error _ => []
      | .ok resultado2 => match resultado2 with | none => [] | some t => t
    else tabla1

/-- The per-page collection loop of procesar_pdf, lines 595-601. -/
def conceptos_de_paginas (paginas : List Pagina) (nombre_archivo : String) :
    List ConceptoExtraido :=
  paginas.flatMap (fun pagina =>
    let tabla := extraer_tabla_con_contexto pagina
    if tabla = [] then [] else procesar_tabla_pdf tabla nombre_archivo)

/-- First occurrences, in encounter order. Used for the tipos_error
set of a valid result (the source builds a Python set, whose iteration
order is unspecified; the deduplicated encounter order is taken as its
canonical reading) and for the CSV deduplication. -/
def primerasApariciones {α : Type} [DecidableEq α] : List α → List α
  | [] => []
  | x :: xs => x :: primerasApariciones (xs.filter (fun y => decide (y ≠ x)))
termination_by l => l.length
decreasing_by
  simp only [List.length_cons]
  exact Nat.lt_succ_of_le (List.length_filter_le _ _)

/-- The freshly initialized ResultadoValidacionPDF of procesar_pdf,
lines 566-570. -/
def resultadoInicial (nombre : String) : ResultadoValidacionPDF :=
  { nombre_archivo := nombre, es_valido := false, es_plantilla_remaa := false }

/-- ExtractorConceptosREMAA.procesar_pdf, lines 555-640. Returns the
result together with the records appended to the corpus (the source
mutates self.conceptos_extraidos; state passing makes that explicit).
The only modelled exception reaching the method's own handler is one
raised by the second pdfplumber.open (text extraction and table
extraction catch their own exceptions internally). -/
def procesar_pdf (doc : Documento) : ResultadoValidacionPDF × List ConceptoExtraido :=
  let resultado := resultadoInicial doc.nombre_archivo
  match extraer_texto_completo_pdf doc with
  | none => ({ resultado with mensaje := "No se pudo extraer texto del PDF" }, [])
  | some texto_completo =>
    if texto_completo = "" then
      ({ resultado with mensaje := "No se pudo extraer texto del PDF" }, [])
    else
      let veredicto := validar_plantilla_remaa texto_completo
      if veredicto.1 = false then
        ({ resultado with
            es_plantilla_remaa := false,
            mensaje := veredicto.2,
            tipos_error := [.plantillaNoValida] }, [])
      else
        let claves_encontradas := extraer_claves texto_completo
        if claves_encontradas = [] then
          ({ resultado with
              es_plantilla_remaa := true,
              mensaje := "No se encontraron claves válidas en el PDF",
              tipos_error := [.sinClavesValidas] }, [])
        else
          match doc.paginas with
          | .error e =>
            ({ resultado with
                es_plantilla_remaa := true,
                mensaje := "Error al procesar: " ++ e,
                tipos_error := [.errorProcesamiento] }, [])
          | .ok paginas =>
            let conceptos_pdf := conceptos_de_paginas paginas doc.nombre_archivo
            if conceptos_pdf = [] then
              ({ resultado with
                  es_plantilla_remaa := true,
                  mensaje := "No se pudieron extraer conceptos válidos",
                  tipos_error := [.sinConceptos] }, [])
            else
              let conceptos_validos :=
                (conceptos_pdf.filter (fun c => decide (c.errores = []))).length
              let errores_criticos :=
                (conceptos_pdf.filter (fun c => decide (c.errores ≠ []))).length
              let advertencias_total :=
                (conceptos_pdf.map (fun c => c.advertencias.length)).sum
              ({ resultado with
                  es_valido := true,
                  es_plantilla_remaa := true,
                  conceptos_extraidos := conceptos_pdf.length,
                  conceptos_validos := conceptos_validos,
                  errores_criticos := errores_criticos,
                  advertencias := advertencias_total,
                  tipos_error := primerasApariciones (conceptos_pdf.flatMap (fun c => c.errores)),
                  mensaje := "✓ Procesado correctamente: " ++ toString conceptos_validos ++
                    "/" ++ toString conceptos_pdf.length ++ " conceptos válidos" },
               conceptos_pdf)

/-- The driver loop of procesar_todos_los_pdfs, lines 643-681: the
accumulated per-document results and the accumulated corpus records. -/
def procesar_todos_los_pdfs (docs : List Documento) :
    List ResultadoValidacionPDF × List ConceptoExtraido :=
  (docs.map (fun d => (procesar_pdf d).1), docs.flatMap (fun d => (procesar_pdf d).2))

/-! ## Clean-records export, lines 696-734 -/

/-- A row of conceptos_master.csv (the dict built at lines 712-718). -/
structure FilaCSV where
  clave : String
  concepto_original : String
  unidad : String
  precio_unitario : ℚ
  origen_pdf : String
deriving DecidableEq

/-- The projection of an error-free record onto its CSV columns. -/
def proyeccionCSV (c : ConceptoExtraido) : FilaCSV :=
  { clave := c.clave, concepto_original := c.concepto_original, unidad := c.unidad,
    precio_unitario := c.precio_unitario, origen_pdf := c.origen_pdf }

/-- pandas drop_duplicates(subset=['clave'], keep='first'): keep each
row whose key has not been seen yet, in order; vistas accumulates the
keys already kept. -/
def dedupPorClave (vistas : List String) : List FilaCSV → List FilaCSV
  | [] => []
  | x :: xs =>
    if vistas.contains x.clave then dedupPorClave vistas xs
    else x :: dedupPorClave (x.clave :: vistas) xs

/-- ExtractorConceptosREMAA.generar_csv_master, lines 696-734: none
when nothing is exported (the early returns), otherwise the
deduplicated rows and the count of dropped duplicates. -/
def generar_csv_master (conceptos_extraidos : List ConceptoExtraido) :
    Option (List FilaCSV × ℕ) :=
  if conceptos_extraidos = [] then none
  else
    let datos := (conceptos_extraidos.filter (fun c => decide (c.errores = []))).map proyeccionCSV
    if datos = [] then none
    else
      let df_unico := dedupPorClave [] datos
      some (df_unico, datos.length - df_unico.length)

/-! ## Claim-side definitions

These follow the wording of the specification's claims, to be compared
with the definitions translated from the source above. -/

/-- Claim wording (C1): the first column of a row is empty or blank. -/
def columna0Vacia (f : Fila) : Bool :=
  match f.getD 0 none with
  | none => true
  | some s => pyStrip s == ""

/-- Claim wording (C1): the second column of a row holds non-empty
text. -/
def columna1Texto (f : Fila) : Bool :=
  match f.getD 1 none with
  | none => false
  | some s => pyStrip s != ""

/-- Claim wording (C1): a continuation row, whose first column is
empty or blank and whose second column holds non-empty text. A row
holding a valid key in column 0, or of any other shape, is not a
continuation row. -/
def filaContinuacion (f : Fila) : Bool := columna0Vacia f && columna1Texto f

/-- Claim wording (C1): the trimmed second column of a row. -/
def fragmento (f : Fila) : String :=
  match f.getD 1 none with
  | none => ""
  | some s => pyStrip s

/-- Claim wording (C1): the consecutive continuation rows following
the start row. -/
def continuaciones (filas : List Fila) (inicio : ℕ) : List Fila :=
  (filas.drop (inicio + 1)).takeWhile filaContinuacion

/-- Claim wording (C1): the trimmed second column of the start row, as
the leading description fragment; a start row without second-column
text contributes no fragment. -/
def fragmentoInicial (filas : List Fila) (inicio : ℕ) : List String :=
  match (filas.getD inicio []).getD 1 none with
  | none => []
  | some s => if s = "" then [] else [pyStrip s]

/-- Claim wording (C1): the description obtained by joining with
single spaces the trimmed second column of the start row and the
trimmed second columns of the consecutive continuation rows. -/
def descripcionSegunClaim (filas : List Fila) (inicio : ℕ) : String :=
  pyJoin " " (fragmentoInicial filas inicio ++ (continuaciones filas inicio).map fragmento)

/-- Claim wording (C2): non-positivity checked in the priority order
quantity, unit price, amount; when all three are positive, valid if
and only if the absolute deviation of the amount from quantity times
unit price is at most 2 percent of that product. -/
def coherenciaSegunClaim (cantidad precio_unitario importe : ℚ) : Bool × Option CodigoError :=
  if cantidad ≤ 0 then (false, some .cantidadInvalida)
  else if precio_unitario ≤ 0 then (false, some .precioInvalido)
  else if importe ≤ 0 then (false, some .importeInvalido)
  else if |importe - cantidad * precio_unitario| ≤ cantidad * precio_unitario * (2 / 100) then
    (true, none)
  else (false, some (.incoherenciaNumerica (cantidad * precio_unitario) importe))

/-- Claim wording (C9): one or more uppercase letters followed by
exactly one trailing digit, phrased through the last character. -/
def letrasMasUnDigito (cs : List Char) : Bool :=
  decide (cs.dropLast ≠ []) && cs.dropLast.all esMayuscula &&
    (match cs.getLast? with | some d => esDigito d | none => false)

/-- Claim wording (C9): the unit validator checked in order on the
trimmed unit: empty, longer than 5 characters, containing a digit
without being letters plus one trailing digit, else valid. -/
def unidadSegunClaim (unidad : String) : Bool × Option CodigoError :=
  let u := pyStrip unidad
  if u.length = 0 then (false, some .unidadVacia)
  else if 5 < u.length then (false, some .unidadDemasiadoLarga)
  else if u.data.any esDigito && !letrasMasUnDigito u.data then
    (false, some .unidadFormatoSospechoso)
  else (true, none)

/-- Python text.split(" ") on character lists, used to speak about
standalone words (C10). -/
def trozosPorEspacio : List Char → List (List Char)
  | [] => [[]]
  | c :: t =>
    let r := trozosPorEspacio t
    if c == ' ' then [] :: r
    else
      match r with
      | [] => [[c]]
      | w :: ws => (c :: w) :: ws

/-- The space-separated words of a string (C10). -/
def palabrasDe (s : String) : List String := (trozosPorEspacio s.data).map String.mk


/-- The error (or warning) actually recorded for one validator result:
nothing on success, the code on failure. -/
def errSi (r : Bool × Option CodigoError) : List CodigoError :=
  if r.1 then [] else r.2.toList

/-- The row sequence of the specification's section 8 multiline
example. -/
def ejemploSeccion8 : List Fila :=
  [[some "HER-001", some "Suministro e instalación", some "PZS", some "10", some "50.00", some "500.00"],
   [some "", some "de tubería de cobre", some "", some "", some "", some ""],
   [some "HER-002", some "Siguiente item", some "PZS", some "1", some "1.00", some "1.00"]]

/-- A record whose description is empty while every other field is
clean (valid key, valid unit, coherent numbers). -/
def registroDescripcionVacia : ConceptoExtraido :=
  { clave := "HER-001", concepto_original := "", unidad := "PZS",
    cantidad := 10, precio_unitario := 50, importe := 500,
    origen_pdf := "doc.pdf", numero_linea := 1 }

/-- An error-free record, first occurrence of its key. -/
def registroLimpioA : ConceptoExtraido :=
  { clave := "HER-001", concepto_original := "descripcion uno", unidad := "PZS",
    cantidad := 1, precio_unitario := 2, importe := 2,
    origen_pdf := "a.pdf", numero_linea := 1 }

/-- An error-free record with the same key as registroLimpioA but a
different description and source. -/
def registroLimpioB : ConceptoExtraido :=
  { clave := "HER-001", concepto_original := "otra descripcion", unidad := "PZS",
    cantidad := 1, precio_unitario := 2, importe := 2,
    origen_pdf := "b.pdf", numero_linea := 1 }

/-- A document whose text extraction raises. -/
def docTextoExcepcion : Documento :=
  { nombre_archivo := "doc2.pdf", texto_paginas := .error "boom", paginas := .ok [] }

/-- A document whose text passes the template gate but contains no
valid key. -/
def docSinClavesEj : Documento :=
  { nombre_archivo := "doc5.pdf",
    texto_paginas := .ok [some "CLAVE CONCEPTO UNID P.U. IMPORTE"], paginas := .ok [] }

/-- A document whose text fails the template gate. -/
def docSinPlantillaEj : Documento :=
  { nombre_archivo := "doc4.pdf", texto_paginas := .ok [some "hola mundo"], paginas := .ok [] }

/-- A text whose upper-cased form contains UNID only inside the longer
word UNIDAD, never as a standalone space-separated word. -/
def ejemploSinEncabezados : String := "clave concepto unidad cant p.u. importe"

/-! ## Lemmas and claim theorems -/

/-! Bridge lemmas between the loop conditions of the source embedding
and the claim-side row predicates. -/

theorem pyStrip_empty : pyStrip "" = "" := rfl

theorem es_clave_valida_empty : es_clave_valida "" = false := rfl

theorem getD_one_some_lt {f : Fila} {s : String} (h : f.getD 1 none = some s) :
    1 < f.length := by
  by_contra hle
  rw [List.getD_eq_default _ _ (Nat.le_of_not_lt hle)] at h
  exact Option.noConfusion h

theorem filaCont_iff (f : Fila) :
    filaContinuacion f = true ↔
      (((!truthy (cell0 f) || pyStrip (cellStr (cell0 f)) == "") &&
        decide (f.length > 1) && truthy (f.getD 1 none)) = true ∧
       (pyStrip (cellStr (f.getD 1 none)) != "") = true) := by
  unfold filaContinuacion columna0Vacia columna1Texto cell0
  cases h0 : f.getD 0 none with
  | none =>
    cases h1 : f.getD 1 none with
    | none => simp [truthy]
    | some s =>
      have hlen : 1 < f.length := getD_one_some_lt h1
      by_cases hs : pyStrip s = ""
      · simp [truthy, cellStr, hs, hlen]
      · have hsne : s ≠ "" := by
          intro he; exact hs (by rw [he]; rfl)
        simp [truthy, cellStr, hs, hsne, hlen]
  | some t =>
    cases h1 : f.getD 1 none with
    | none => simp [truthy, cellStr]
    | some s =>
      have hlen : 1 < f.length := getD_one_some_lt h1
      by_cases ht : pyStrip t = ""
      · by_cases hs : pyStrip s = ""
        · simp [truthy, cellStr, ht, hs, hlen]
        · have hsne : s ≠ "" := by
            intro he; exact hs (by rw [he]; rfl)
          simp [truthy, cellStr, ht, hs, hsne, hlen]
      · have htne : t ≠ "" := by
          intro he; exact ht (by rw [he]; rfl)
        by_cases hs : pyStrip s = ""
        · simp [truthy, cellStr, ht, hs, hlen, htne]
        · simp [truthy, cellStr, ht, hs, hlen, htne]

theorem branch1_false_of_cont (f : Fila) (hc : filaContinuacion f = true) :
    (truthy (cell0 f) && es_clave_valida (pyStrip (cellStr (cell0 f)))) = false := by
  unfold filaContinuacion columna0Vacia at hc
  unfold cell0
  cases h0 : f.getD 0 none with
  | none => simp [truthy]
  | some t =>
    rw [h0] at hc
    simp only [Bool.and_eq_true, beq_iff_eq] at hc
    obtain ⟨ht, -⟩ := hc
    simp only [cellStr, ht, es_clave_valida_empty, Bool.and_false]

theorem fragmento_eq_of_cont (f : Fila) (hc : filaContinuacion f = true) :
    fragmento f = pyStrip (cellStr (f.getD 1 none)) := by
  unfold filaContinuacion columna1Texto at hc
  unfold fragmento
  cases h1 : f.getD 1 none with
  | none => rw [h1] at hc; simp [truthy] at hc
  | some s => simp [cellStr]

/-! The loop of the multiline reconstructor consumes exactly the
maximal prefix of continuation rows of its row suffix. -/

theorem reconLoop_eq_takeWhile (l : List Fila) (p : List String) :
    reconLoop l p =
      (p ++ (l.takeWhile filaContinuacion).map fragmento,
       (l.takeWhile filaContinuacion).length) := by
  induction l generalizing p with
  | nil => simp [reconLoop]
  | cons fila resto ih =>
    rw [List.takeWhile_cons]
    by_cases hcont : filaContinuacion fila = true
    · rw [if_pos hcont]
      obtain ⟨hb2, ht⟩ := (filaCont_iff fila).mp hcont
      have hb1 := branch1_false_of_cont fila hcont
      simp only [reconLoop, hb1, Bool.false_eq_true, if_false, hb2, if_true, ht]
      rw [ih]
      simp [fragmento_eq_of_cont fila hcont, List.append_assoc]
    · rw [if_neg hcont]
      simp only [reconLoop]
      split
      · simp
      · split
        · next hb2 =>
          split
          · next ht =>
            exact absurd ((filaCont_iff fila).mpr ⟨hb2, ht⟩) hcont
          · simp
        · simp

/-! The reconstructor equals the claim-side description and last
consumed index. -/

theorem fragmentoInicial_eq (filas : List Fila) (inicio : ℕ) :
    (if (decide ((filas.getD inicio []).length > 1) &&
          truthy ((filas.getD inicio []).getD 1 none)) = true
     then [pyStrip (cellStr ((filas.getD inicio []).getD 1 none))] else []) =
      fragmentoInicial filas inicio := by
  unfold fragmentoInicial
  cases h1 : (filas.getD inicio []).getD 1 none with
  | none => simp [truthy, h1]
  | some s =>
    have hlen : 1 < (filas.getD inicio []).length := getD_one_some_lt h1
    simp only [List.getD, List.get?_eq_getElem?] at hlen
    by_cases hs : s = ""
    · simp [truthy, h1, hs]
    · simp [truthy, h1, hs, hlen, cellStr]

theorem reconstruir_eq_claim (filas : List Fila) (inicio : ℕ) :
    reconstruir_concepto_multilinea filas inicio =
      (descripcionSegunClaim filas inicio, inicio + (continuaciones filas inicio).length) := by
  simp only [reconstruir_concepto_multilinea, descripcionSegunClaim, continuaciones]
  rw [reconLoop_eq_takeWhile, fragmentoInicial_eq]

/-! Field bookkeeping of aplicar_validaciones. -/

theorem agregarError_clave (c : ConceptoExtraido) (r) : (agregarError c r).clave = c.clave := by
  unfold agregarError; split <;> rfl

theorem agregarError_concepto (c : ConceptoExtraido) (r) :
    (agregarError c r).concepto_original = c.concepto_original := by
  unfold agregarError; split <;> rfl

theorem agregarError_unidad (c : ConceptoExtraido) (r) : (agregarError c r).unidad = c.unidad := by
  unfold agregarError; split <;> rfl

theorem agregarError_cantidad (c : ConceptoExtraido) (r) :
    (agregarError c r).cantidad = c.cantidad := by
  unfold agregarError; split <;> rfl

theorem agregarError_precio (c : ConceptoExtraido) (r) :
    (agregarError c r).precio_unitario = c.precio_unitario := by
  unfold agregarError; split <;> rfl

theorem agregarError_importe (c : ConceptoExtraido) (r) :
    (agregarError c r).importe = c.importe := by
  unfold agregarError; split <;> rfl

theorem agregarError_advertencias (c : ConceptoExtraido) (r) :
    (agregarError c r).advertencias = c.advertencias := by
  unfold agregarError; split <;> rfl

theorem agregarError_errores (c : ConceptoExtraido) (r) :
    (agregarError c r).errores = c.errores ++ errSi r := by
  unfold agregarError errSi; split <;> simp

theorem agregarAdvertencia_clave (c : ConceptoExtraido) (r) :
    (agregarAdvertencia c r).clave = c.clave := by
  unfold agregarAdvertencia; split <;> rfl

theorem agregarAdvertencia_concepto (c : ConceptoExtraido) (r) :
    (agregarAdvertencia c r).concepto_original = c.concepto_original := by
  unfold agregarAdvertencia; split <;> rfl

theorem agregarAdvertencia_unidad (c : ConceptoExtraido) (r) :
    (agregarAdvertencia c r).unidad = c.unidad := by
  unfold agregarAdvertencia; split <;> rfl

theorem agregarAdvertencia_cantidad (c : ConceptoExtraido) (r) :
    (agregarAdvertencia c r).cantidad = c.cantidad := by
  unfold agregarAdvertencia; split <;> rfl

theorem agregarAdvertencia_precio (c : ConceptoExtraido) (r) :
    (agregarAdvertencia c r).precio_unitario = c.precio_unitario := by
  unfold agregarAdvertencia; split <;> rfl

theorem agregarAdvertencia_importe (c : ConceptoExtraido) (r) :
    (agregarAdvertencia c r).importe = c.importe := by
  unfold agregarAdvertencia; split <;> rfl

theorem agregarAdvertencia_errores (c : ConceptoExtraido) (r) :
    (agregarAdvertencia c r).errores = c.errores := by
  unfold agregarAdvertencia; split <;> rfl

theorem agregarAdvertencia_advertencias (c : ConceptoExtraido) (r) :
    (agregarAdvertencia c r).advertencias = c.advertencias ++ errSi r := by
  unfold agregarAdvertencia errSi; split <;> simp

theorem aplicar_cantidad (c : ConceptoExtraido) :
    (aplicar_validaciones c).cantidad = c.cantidad := by
  simp only [aplicar_validaciones, agregarError_cantidad, agregarAdvertencia_cantidad]

theorem aplicar_precio (c : ConceptoExtraido) :
    (aplicar_validaciones c).precio_unitario = c.precio_unitario := by
  simp only [aplicar_validaciones, agregarError_precio, agregarAdvertencia_precio]

theorem aplicar_importe (c : ConceptoExtraido) :
    (aplicar_validaciones c).importe = c.importe := by
  simp only [aplicar_validaciones, agregarError_importe, agregarAdvertencia_importe]

theorem aplicar_errores (c : ConceptoExtraido) :
    (aplicar_validaciones c).errores =
      c.errores ++ errSi (validar_clave c.clave) ++ errSi (validar_unidad c.unidad) ++
        errSi (validar_coherencia c.cantidad c.precio_unitario c.importe) := by
  simp only [aplicar_validaciones, agregarError_errores, agregarAdvertencia_errores,
    agregarError_clave, agregarError_unidad, agregarError_cantidad, agregarError_precio,
    agregarError_importe, agregarAdvertencia_cantidad, agregarAdvertencia_precio,
    agregarAdvertencia_importe]

theorem aplicar_advertencias (c : ConceptoExtraido) :
    (aplicar_validaciones c).advertencias =
      c.advertencias ++ errSi (validar_concepto c.concepto_original) := by
  simp only [aplicar_validaciones, agregarError_advertencias, agregarAdvertencia_advertencias,
    agregarError_clave, agregarError_concepto, agregarError_unidad]

/-! The scanner emits a record at a key row and resumes one past the
last consumed row. -/

theorem procesarFilas_en_clave (tabla : List Fila) (nombre : String) (i : ℕ)
    (hi : i < tabla.length)
    (ht : truthy (cell0 tabla[i]) = true)
    (hv : es_clave_valida (pyStrip (cellStr (cell0 tabla[i]))) = true) :
    procesarFilas tabla nombre i =
      construirConcepto tabla nombre i ::
        procesarFilas tabla nombre ((reconstruir_concepto_multilinea tabla i).2 + 1) := by
  rw [procesarFilas]
  simp only [dif_pos hi, List.get_eq_getElem, ht, hv]
  simp


/-! Deduplication keeps exactly the first row per key. -/

theorem dedupPorClave_filter (vistas : List String) (l : List FilaCSV) (k : String) :
    (dedupPorClave vistas l).filter (fun r => decide (r.clave = k)) =
      if vistas.contains k then []
      else (l.filter (fun r => decide (r.clave = k))).take 1 := by
  induction l generalizing vistas with
  | nil => simp [dedupPorClave]
  | cons x xs ih =>
    simp only [dedupPorClave]
    by_cases hseen : vistas.contains x.clave = true
    · rw [if_pos hseen, ih]
      by_cases hk : vistas.contains k = true
      · rw [if_pos hk, if_pos hk]
      · have hxk : ¬(x.clave = k) := fun h => hk (h ▸ hseen)
        rw [if_neg hk, if_neg hk, List.filter_cons_of_neg (by simpa using hxk)]
    · rw [if_neg hseen]
      by_cases hxk : x.clave = k
      · subst hxk
        have hk : ¬(vistas.contains x.clave = true) := hseen
        rw [List.filter_cons_of_pos (by simp), ih,
          if_pos (by simp [List.contains_cons]), if_neg hk,
          List.filter_cons_of_pos (by simp)]
        simp
      · have hcontra : (x.clave :: vistas).contains k = vistas.contains k := by
          have hbeq : (k == x.clave) = false := by
            rw [beq_eq_false_iff_ne]
            exact fun h => hxk h.symm
          rw [List.contains_cons, hbeq, Bool.false_or]
        rw [List.filter_cons_of_neg (by simpa using hxk), ih, hcontra,
          List.filter_cons_of_neg (by simpa using hxk)]

theorem dedupPorClave_mem (vistas : List String) (l : List FilaCSV) (r : FilaCSV)
    (hr : r ∈ dedupPorClave vistas l) : r ∈ l := by
  induction l generalizing vistas with
  | nil => simp [dedupPorClave] at hr
  | cons x xs ih =>
    simp only [dedupPorClave] at hr
    by_cases hseen : vistas.contains x.clave = true
    · rw [if_pos hseen] at hr
      exact List.mem_cons_of_mem x (ih _ hr)
    · rw [if_neg hseen] at hr
      rcases List.mem_cons.mp hr with h | h
      · exact h ▸ List.mem_cons_self x xs
      · exact List.mem_cons_of_mem x (ih _ h)

/-! A filter keeps every element exactly when its length is preserved. -/

theorem length_filter_eq_iff {α : Type} (p : α → Bool) (l : List α) :
    (l.filter p).length = l.length ↔ ∀ a ∈ l, p a = true := by
  induction l with
  | nil => simp
  | cons x xs ih =>
    by_cases hx : p x = true
    · simp [hx, ih]
    · rw [List.filter_cons_of_neg hx]
      constructor
      · intro h
        exfalso
        have hle := List.length_filter_le p xs
        simp only [List.length_cons] at h
        omega
      · intro h
        exact absurd (h x (List.mem_cons_self x xs)) hx

/-! The template gate passes exactly when no token is missing. -/

theorem validar_plantilla_pasa_iff (texto : String) :
    (validar_plantilla_remaa texto).1 = true ↔
      ∀ p ∈ PALABRAS_CLAVE_REMAA, subEn p.data (pyUpper texto).data = true := by
  unfold validar_plantilla_remaa palabras_encontradas
  split
  · next h =>
    simp only [length_filter_eq_iff] at h
    simpa using h
  · next h =>
    simp only [length_filter_eq_iff] at h
    simpa using h

theorem palabras_faltantes_vacia_iff (texto : String) :
    palabras_faltantes texto = [] ↔
      ∀ p ∈ PALABRAS_CLAVE_REMAA, subEn p.data (pyUpper texto).data = true := by
  unfold palabras_faltantes
  rw [List.filter_eq_nil_iff]
  constructor
  · intro h p hp
    have := h p hp
    simpa using this
  · intro h p hp
    simpa using h p hp

/-! The coherence validator matches its claim-side formulation. -/

theorem validar_coherencia_eq_claim (cantidad precio_unitario importe : ℚ) :
    validar_coherencia cantidad precio_unitario importe =
      coherenciaSegunClaim cantidad precio_unitario importe := by
  unfold validar_coherencia coherenciaSegunClaim TOLERANCIA_REDONDEO
  by_cases h1 : cantidad ≤ 0
  · simp [h1]
  · by_cases h2 : precio_unitario ≤ 0
    · simp [h1, h2]
    · by_cases h3 : importe ≤ 0
      · simp [h1, h2, h3]
      · by_cases h4 :
          |importe - cantidad * precio_unitario| ≤ cantidad * precio_unitario * (2 / 100)
        · simp [h1, h2, h3, h4, not_lt.mpr h4]
        · simp [h1, h2, h3, h4, lt_of_not_le h4]

/-! The digit run of the unit exception pattern. -/

theorem drop_length_takeWhile {α : Type} (p : α → Bool) (l : List α) :
    l.drop (l.takeWhile p).length = l.dropWhile p := by
  induction l with
  | nil => rfl
  | cons x xs ih =>
    by_cases hx : p x = true
    · simp [List.takeWhile_cons, List.dropWhile_cons, hx, ih]
    · simp [List.takeWhile_cons, List.dropWhile_cons, hx]

theorem takeWhile_append_singleton {α : Type} (p : α → Bool) (l : List α) (a : α)
    (hl : ∀ x ∈ l, p x = true) (ha : p a = false) :
    (l ++ [a]).takeWhile p = l := by
  induction l with
  | nil => simp [List.takeWhile_cons, ha]
  | cons x xs ih =>
    have hx := hl x (List.mem_cons_self x xs)
    simp only [List.cons_append, List.takeWhile_cons, hx, if_true]
    rw [ih (fun y hy => hl y (List.mem_cons_of_mem x hy))]

theorem esDigito_no_mayuscula {c : Char} (h : esDigito c = true) : esMayuscula c = false := by
  unfold esDigito at h
  unfold esMayuscula
  simp only [Bool.and_eq_true, decide_eq_true_eq] at h
  obtain ⟨h1, h2⟩ := h
  have : ¬('A' ≤ c) := by
    intro hA
    have := Char.le_trans hA h2
    exact absurd this (by decide)
  simp [this]

theorem mayuscula_no_digito {c : Char} (h : esMayuscula c = true) : esDigito c = false := by
  unfold esMayuscula at h
  unfold esDigito
  simp only [Bool.and_eq_true, decide_eq_true_eq] at h
  obtain ⟨h1, -⟩ := h
  have : ¬(c ≤ '9') := by
    intro h9
    exact absurd (Char.le_trans h1 h9) (by decide)
  simp [this]

theorem matchUnidadExcepcion_eq (cs : List Char) :
    matchUnidadExcepcion cs = letrasMasUnDigito cs := by
  unfold matchUnidadExcepcion letrasMasUnDigito
  dsimp only
  have hsplit := List.takeWhile_append_dropWhile esMayuscula cs
  have hall : ∀ x ∈ cs.takeWhile esMayuscula, esMayuscula x = true :=
    fun x hx => List.mem_takeWhile_imp hx
  rw [drop_length_takeWhile]
  cases hd : cs.dropWhile esMayuscula with
  | nil =>
    -- the whole string is uppercase letters; the last character (if
    -- any) is a letter, not a digit, so both sides are false
    rw [hd] at hsplit
    simp only [List.append_nil] at hsplit
    cases hcs : cs.reverse with
    | nil =>
      have : cs = [] := by simpa using congrArg List.reverse hcs
      subst this
      simp
    | cons d rest =>
      have hcs' : cs = rest.reverse ++ [d] := by
        have := congrArg List.reverse hcs
        simpa using this
      have hdmem : d ∈ cs := by rw [hcs']; simp
      have hdup : esMayuscula d = true := hall d (by rw [hsplit]; exact hdmem)
      rw [hcs', List.getLast?_concat]
      simp [mayuscula_no_digito hdup]
  | cons d resto =>
    have hdno : esMayuscula d = false := by
      have := List.head?_dropWhile_not esMayuscula cs
      rw [hd] at this
      simpa using this
    cases resto with
    | nil =>
      -- cs = letters ++ [d]
      rw [hd] at hsplit
      conv_rhs => rw [← hsplit]
      rw [List.dropLast_concat, List.getLast?_concat]
      by_cases hdig : esDigito d = true
      · have hallb : (cs.takeWhile esMayuscula).all esMayuscula = true :=
          List.all_eq_true.mpr hall
        simp only [hdig, hallb, Bool.and_true]
        cases hr : cs.takeWhile esMayuscula with
        | nil => simp
        | cons y ys => simp
      · simp [hdig]
    | cons d2 resto2 =>
      -- at least two non-letter-run characters follow: the first of
      -- them sits inside dropLast and is not a letter
      rw [hd] at hsplit
      conv_rhs => rw [← hsplit]
      rw [List.dropLast_append_of_ne_nil _ (by simp)]
      have : ((cs.takeWhile esMayuscula ++ (d :: d2 :: resto2).dropLast).all esMayuscula) = false := by
        rw [Bool.eq_false_iff]
        intro hallb
        rw [List.all_eq_true] at hallb
        have hdmem : d ∈ cs.takeWhile esMayuscula ++ (d :: d2 :: resto2).dropLast := by
          simp [List.dropLast]
        have := hallb d hdmem
        rw [hdno] at this
        exact Bool.false_ne_true this
      rw [this]
      simp

/-! The unit validator matches its claim-side formulation. -/

theorem validar_unidad_eq_claim (unidad : String) :
    validar_unidad unidad = unidadSegunClaim unidad := by
  unfold validar_unidad unidadSegunClaim
  dsimp only
  rw [matchUnidadExcepcion_eq]
  by_cases h0 : (pyStrip unidad).length = 0
  · rw [if_pos (Or.inr h0), if_pos h0]
  · have hu : ¬unidad = "" := fun h => h0 (by rw [h]; rfl)
    rw [if_neg (by rintro (h | h); exacts [hu h, h0 h]), if_neg h0]

/-! The token search finds a token exactly when a digit is present. -/

theorem buscarNumero_none_iff (cs : List Char) :
    buscarNumero cs = none ↔ ∀ c ∈ cs, esDigito c = false := by
  induction cs with
  | nil => simp [buscarNumero.eq_1]
  | cons c t ih =>
    have hcases : ∀ b : Bool, b = true ∨ b = false := fun b => by cases b <;> simp
    cases t with
    | nil =>
      rw [buscarNumero.eq_3]
      rcases hcases (esDigito c) with hd | hd
      · rw [if_pos hd]
        simp [hd]
      · rw [if_neg (by simp [hd]), if_neg (by simp), buscarNumero.eq_1]
        simp [hd]
    | cons d r =>
      rw [buscarNumero.eq_2]
      rcases hcases (esDigito c) with hd | hd
      · rw [if_pos hd]
        simp [hd]
      · rw [if_neg (by simp [hd])]
        rcases hcases (c == '-' && esDigito d) with hm | hm
        · rw [if_pos hm]
          simp only [Bool.and_eq_true] at hm
          constructor
          · intro h
            exact absurd h (by simp)
          · intro h
            have := h d (by simp)
            rw [hm.2] at this
            exact absurd this (by simp)
        · rw [if_neg (by simp [hm]), ih]
          constructor
          · intro h x hx
            rcases List.mem_cons.mp hx with hx | hx
            · exact hx ▸ hd
            · exact h x hx
          · intro h x hx
            exact h x (List.mem_cons_of_mem c hx)

theorem limpiar_none_iff (s : String) :
    limpiar_valor_numerico (some s) = none ↔
      ∀ c ∈ caracteresLimpios s, esDigito c = false := by
  unfold limpiar_valor_numerico
  by_cases hs : s = ""
  · subst hs
    have hvacio : caracteresLimpios "" = [] := rfl
    simp [truthy, hvacio]
  · have : truthy (some s) = true := by simp [truthy, hs]
    simp only [this, Bool.true_eq_false, if_false, cellStr]
    exact buscarNumero_none_iff _

/-! Coherence failures at non-positive stored values. -/

theorem coherencia_cantidad_no_positiva (q pu imp : ℚ) (h : q ≤ 0) :
    validar_coherencia q pu imp = (false, some .cantidadInvalida) := by
  unfold validar_coherencia
  rw [if_pos h]

theorem coherencia_precio_no_positivo (q pu imp : ℚ) (hq : 0 < q) (h : pu ≤ 0) :
    validar_coherencia q pu imp = (false, some .precioInvalido) := by
  unfold validar_coherencia
  rw [if_neg (not_le.mpr hq), if_pos h]

theorem coherencia_importe_no_positivo (q pu imp : ℚ) (hq : 0 < q) (hp : 0 < pu)
    (h : imp ≤ 0) :
    validar_coherencia q pu imp = (false, some .importeInvalido) := by
  unfold validar_coherencia
  rw [if_neg (not_le.mpr hq), if_neg (not_le.mpr hp), if_pos h]

/-! The record the scanner builds carries the raw optional numbers
with absent mapped to zero, and any coherence failure lands in its
errores list. -/

theorem construirConcepto_numeros (tabla : List Fila) (nombre : String) (i : ℕ) :
    (construirConcepto tabla nombre i).cantidad = (cantidadCruda tabla i).getD 0 ∧
    (construirConcepto tabla nombre i).precio_unitario = (precioCrudo tabla i).getD 0 ∧
    (construirConcepto tabla nombre i).importe = (importeCrudo tabla i).getD 0 := by
  unfold construirConcepto
  exact ⟨aplicar_cantidad _, aplicar_precio _, aplicar_importe _⟩

theorem construirConcepto_error_coherencia (tabla : List Fila) (nombre : String) (i : ℕ)
    (e : CodigoError)
    (he : e ∈ errSi (validar_coherencia ((cantidadCruda tabla i).getD 0)
      ((precioCrudo tabla i).getD 0) ((importeCrudo tabla i).getD 0))) :
    e ∈ (construirConcepto tabla nombre i).errores := by
  unfold construirConcepto
  rw [aplicar_errores]
  simp only [List.mem_append]
  exact Or.inr he

/-! Unfolding lemmas for each early return of procesar_pdf. -/

theorem procesar_pdf_sin_texto (doc : Documento)
    (h : extraer_texto_completo_pdf doc = none) :
    procesar_pdf doc =
      ({ resultadoInicial doc.nombre_archivo with
          mensaje := "No se pudo extraer texto del PDF" }, []) := by
  unfold procesar_pdf
  rw [h]

theorem procesar_pdf_texto_vacio (doc : Documento)
    (h : extraer_texto_completo_pdf doc = some "") :
    procesar_pdf doc =
      ({ resultadoInicial doc.nombre_archivo with
          mensaje := "No se pudo extraer texto del PDF" }, []) := by
  unfold procesar_pdf
  rw [h]
  dsimp only
  rw [if_pos rfl]

theorem procesar_pdf_plantilla_no_valida (doc : Documento) (texto : String)
    (h : extraer_texto_completo_pdf doc = some texto) (hne : texto ≠ "")
    (hg : (validar_plantilla_remaa texto).1 = false) :
    procesar_pdf doc =
      ({ resultadoInicial doc.nombre_archivo with
          es_plantilla_remaa := false,
          mensaje := (validar_plantilla_remaa texto).2,
          tipos_error := [.plantillaNoValida] }, []) := by
  unfold procesar_pdf
  rw [h]
  dsimp only
  rw [if_neg hne, if_pos hg]

theorem procesar_pdf_sin_claves (doc : Documento) (texto : String)
    (h : extraer_texto_completo_pdf doc = some texto) (hne : texto ≠ "")
    (hg : (validar_plantilla_remaa texto).1 = true)
    (hc : extraer_claves texto = []) :
    procesar_pdf doc =
      ({ resultadoInicial doc.nombre_archivo with
          es_plantilla_remaa := true,
          mensaje := "No se encontraron claves válidas en el PDF",
          tipos_error := [.sinClavesValidas] }, []) := by
  unfold procesar_pdf
  rw [h]
  dsimp only
  rw [if_neg hne, if_neg (by simp [hg]), if_pos hc]

theorem procesar_pdf_excepcion_tablas (doc : Documento) (texto : String) (e : String)
    (h : extraer_texto_completo_pdf doc = some texto) (hne : texto ≠ "")
    (hg : (validar_plantilla_remaa texto).1 = true)
    (hc : extraer_claves texto ≠ [])
    (hp : doc.paginas = .error e) :
    procesar_pdf doc =
      ({ resultadoInicial doc.nombre_archivo with
          es_plantilla_remaa := true,
          mensaje := "Error al procesar: " ++ e,
          tipos_error := [.errorProcesamiento] }, []) := by
  unfold procesar_pdf
  rw [h]
  dsimp only
  rw [if_neg hne, if_neg (by simp [hg]), if_neg hc, hp]

theorem procesar_pdf_sin_conceptos (doc : Documento) (texto : String)
    (paginas : List Pagina)
    (h : extraer_texto_completo_pdf doc = some texto) (hne : texto ≠ "")
    (hg : (validar_plantilla_remaa texto).1 = true)
    (hc : extraer_claves texto ≠ [])
    (hp : doc.paginas = .ok paginas)
    (hcc : conceptos_de_paginas paginas doc.nombre_archivo = []) :
    procesar_pdf doc =
      ({ resultadoInicial doc.nombre_archivo with
          es_plantilla_remaa := true,
          mensaje := "No se pudieron extraer conceptos válidos",
          tipos_error := [.sinConceptos] }, []) := by
  unfold procesar_pdf
  rw [h]
  dsimp only
  rw [if_neg hne, if_neg (by simp [hg]), if_neg hc, hp]
  dsimp only
  rw [if_pos hcc]

theorem procesar_pdf_exitoso (doc : Documento) (texto : String)
    (paginas : List Pagina)
    (h : extraer_texto_completo_pdf doc = some texto) (hne : texto ≠ "")
    (hg : (validar_plantilla_remaa texto).1 = true)
    (hc : extraer_claves texto ≠ [])
    (hp : doc.paginas = .ok paginas)
    (hcc : conceptos_de_paginas paginas doc.nombre_archivo ≠ []) :
    (procesar_pdf doc).1.es_valido = true ∧
    (procesar_pdf doc).1.es_plantilla_remaa = true ∧
    (procesar_pdf doc).1.tipos_error = [] ++
      primerasApariciones ((conceptos_de_paginas paginas doc.nombre_archivo).flatMap
        (fun c => c.errores)) ∧
    (procesar_pdf doc).1.conceptos_extraidos =
      (conceptos_de_paginas paginas doc.nombre_archivo).length ∧
    (procesar_pdf doc).1.conceptos_validos =
      ((conceptos_de_paginas paginas doc.nombre_archivo).filter
        (fun c => decide (c.errores = []))).length ∧
    (procesar_pdf doc).1.errores_criticos =
      ((conceptos_de_paginas paginas doc.nombre_archivo).filter
        (fun c => decide (c.errores ≠ []))).length ∧
    (procesar_pdf doc).2 = conceptos_de_paginas paginas doc.nombre_archivo := by
  unfold procesar_pdf
  rw [h]
  dsimp only
  rw [if_neg hne, if_neg (by simp [hg]), if_neg hc, hp]
  dsimp only
  rw [if_neg hcc]
  exact ⟨rfl, rfl, rfl, rfl, rfl, rfl, rfl⟩

/-- C1: for every row sequence and start index whose row holds a valid
key in column 0 (on tables whose rows are non-empty, as Python indexing
requires), the Multiline Row Reconstructor returns the description
joining with single spaces the trimmed second column of the start row
and the trimmed second columns of the consecutive following
continuation rows (first column empty or blank, second column holding
non-empty text); a following row holding a valid key in column 0, or of
any other shape, is never a continuation row, so it is not consumed;
the returned index is that of the last row consumed, and the Table
Scanner resumes scanning at exactly one past that index. -/
theorem claim_reconstruccion_multilinea (filas : List Fila) (inicio : ℕ) (nombre : String)
    (hwf : ∀ f ∈ filas, f ≠ [])
    (hlt : inicio < filas.length)
    (ht : truthy (cell0 (filas.getD inicio [])) = true)
    (hv : es_clave_valida (pyStrip (cellStr (cell0 (filas.getD inicio [])))) = true) :
    reconstruir_concepto_multilinea filas inicio =
      (descripcionSegunClaim filas inicio, inicio + (continuaciones filas inicio).length) ∧
    (∀ f : Fila, truthy (cell0 f) = true →
      es_clave_valida (pyStrip (cellStr (cell0 f))) = true → filaContinuacion f = false) ∧
    procesarFilas filas nombre inicio =
      construirConcepto filas nombre inicio ::
        procesarFilas filas nombre (inicio + (continuaciones filas inicio).length + 1) := by
  refine ⟨reconstruir_eq_claim filas inicio, ?_, ?_⟩
  · intro f hft hfv
    by_cases hc : filaContinuacion f = true
    · have := branch1_false_of_cont f hc
      rw [hft, hfv] at this
      simp at this
    · exact Bool.not_eq_true _ ▸ Bool.of_not_eq_true hc
  · have hgetD : filas.getD inicio [] = filas[inicio] := List.getD_eq_getElem filas [] hlt
    rw [hgetD] at ht hv
    have h := procesarFilas_en_clave filas nombre inicio hlt ht hv
    rw [h, (reconstruir_eq_claim filas inicio)]

/-- Witness for C1 at the section-8 example: the reconstructed
description joins rows 0 and 1, the last consumed row is row 1, and
the scanner resumes at row 2. -/
theorem claim_reconstruccion_multilinea_testigo :
    reconstruir_concepto_multilinea ejemploSeccion8 0 =
      ("Suministro e instalación de tubería de cobre", 1) ∧
    procesarFilas ejemploSeccion8 "doc.pdf" 0 =
      construirConcepto ejemploSeccion8 "doc.pdf" 0 ::
        procesarFilas ejemploSeccion8 "doc.pdf" 2 := by
  obtain ⟨h1, -, h3⟩ :=
    claim_reconstruccion_multilinea ejemploSeccion8 0 "doc.pdf"
      (by decide) (by decide) (by decide) (by decide)
  have hk : (continuaciones ejemploSeccion8 0).length = 1 := by decide
  constructor
  · rw [h1, hk]
    decide
  · rw [h3, hk]

/-- C2: the coherence validator checks non-positivity in the priority
order quantity, unit price, amount, reporting only the first violated
condition, and on positive inputs is valid exactly when the amount
deviates from quantity times unit price by at most 2 percent of that
product; the section-8 examples evaluate accordingly. -/
theorem claim_coherencia_numerica :
    (∀ cantidad precio_unitario importe : ℚ,
      validar_coherencia cantidad precio_unitario importe =
        coherenciaSegunClaim cantidad precio_unitario importe) ∧
    validar_coherencia 10 50 500 = (true, none) ∧
    validar_coherencia 10 50 560 = (false, some (.incoherenciaNumerica 500 560)) ∧
    validar_coherencia 0 50 500 = (false, some .cantidadInvalida) := by
  refine ⟨validar_coherencia_eq_claim, ?_, ?_,
    coherencia_cantidad_no_positiva 0 50 500 (le_refl 0)⟩
  · norm_num [validar_coherencia, TOLERANCIA_REDONDEO]
  · norm_num [validar_coherencia, TOLERANCIA_REDONDEO]

/-- C9: the unit validator fails with the empty-unit code when the
trimmed unit is empty, else with the too-long code past 5 characters,
else with the suspicious-format code when it contains a digit and is
not one or more uppercase letters followed by exactly one digit, and
is valid otherwise; M2 and ML3 pass while m2, M23 and 2M are
suspicious. -/
theorem claim_validacion_unidad :
    (∀ unidad : String, validar_unidad unidad = unidadSegunClaim unidad) ∧
    validar_unidad "M2" = (true, none) ∧
    validar_unidad "ML3" = (true, none) ∧
    validar_unidad "m2" = (false, some .unidadFormatoSospechoso) ∧
    validar_unidad "M23" = (false, some .unidadFormatoSospechoso) ∧
    validar_unidad "2M" = (false, some .unidadFormatoSospechoso) :=
  ⟨validar_unidad_eq_claim, by decide, by decide, by decide, by decide, by decide⟩

/-- C10: the template gate's token test is plain substring containment
on the upper-cased text: any token occurring inside a longer word
counts as present, so a text whose only occurrence of UNID sits inside
the word UNIDAD passes the gate without ever containing UNID as a
standalone space-separated word. -/
theorem claim_subcadena_plantilla :
    (∀ (texto p : String), p ∈ PALABRAS_CLAVE_REMAA →
      subEn p.data (pyUpper texto).data = true → p ∉ palabras_faltantes texto) ∧
    (validar_plantilla_remaa ejemploSinEncabezados).1 = true ∧
    subEn "UNID".data (pyUpper ejemploSinEncabezados).data = true ∧
    "UNID" ∉ palabrasDe (pyUpper ejemploSinEncabezados) := by
  refine ⟨?_, by decide, by decide, by decide⟩
  intro texto p hp hsub hmem
  have := (List.mem_filter.mp hmem).2
  rw [hsub] at this
  simp at this

/-- Witness for C10: UNID is not reported missing for the example text
even though it only occurs inside the word UNIDAD. -/
theorem claim_subcadena_plantilla_testigo :
    "UNID" ∉ palabras_faltantes ejemploSinEncabezados :=
  claim_subcadena_plantilla.1 ejemploSinEncabezados "UNID" (by decide) (by decide)

/-- Validator codes other than the description check never produce the
empty-description code. -/
theorem conceptoVacio_no_en_clave (s : String) :
    CodigoError.conceptoVacio ∉ errSi (validar_clave s) := by
  unfold validar_clave errSi
  split
  · simp
  · split
    · simp
    · split <;> simp

theorem conceptoVacio_no_en_unidad (s : String) :
    CodigoError.conceptoVacio ∉ errSi (validar_unidad s) := by
  unfold validar_unidad errSi
  dsimp only
  split
  · simp
  · split
    · simp
    · split
      · simp
      · split <;> simp

theorem conceptoVacio_no_en_coherencia (q pu imp : ℚ) :
    CodigoError.conceptoVacio ∉ errSi (validar_coherencia q pu imp) := by
  unfold validar_coherencia errSi
  dsimp only
  split
  · simp
  · split
    · simp
    · split
      · simp
      · split
        · simp
        · split <;> simp

/-- Counterexample to C3: a record whose description is empty and
whose other fields are clean ends with an empty errores list, the
empty-description code sitting in its advertencias instead, and the
record is consequently included in the deduplicated clean export. -/
theorem claim_descripcion_vacia_contraejemplo :
    validar_concepto "" = (false, some .conceptoVacio) ∧
    (aplicar_validaciones registroDescripcionVacia).errores = [] ∧
    (aplicar_validaciones registroDescripcionVacia).advertencias = [.conceptoVacio] ∧
    generar_csv_master [aplicar_validaciones registroDescripcionVacia] =
      some ([proyeccionCSV (aplicar_validaciones registroDescripcionVacia)], 0) := by
  have hnum : validar_coherencia 10 50 500 = (true, none) := by
    norm_num [validar_coherencia, TOLERANCIA_REDONDEO]
  have herr : (aplicar_validaciones registroDescripcionVacia).errores = [] := by
    rw [aplicar_errores]
    have h1 : validar_clave registroDescripcionVacia.clave = (true, none) := by decide
    have h2 : validar_unidad registroDescripcionVacia.unidad = (true, none) := by decide
    rw [h1, h2]
    show [] ++ errSi (true, none) ++ errSi (true, none) ++
      errSi (validar_coherencia 10 50 500) = []
    rw [hnum]
    rfl
  refine ⟨by decide, herr, ?_, ?_⟩
  · rw [aplicar_advertencias]
    rfl
  · unfold generar_csv_master
    rw [if_neg (by simp)]
    have hdatos :
        ([aplicar_validaciones registroDescripcionVacia].filter
          (fun c => decide (c.errores = []))).map proyeccionCSV =
          [proyeccionCSV (aplicar_validaciones registroDescripcionVacia)] := by
      rw [List.filter_cons_of_pos (by rw [herr]; simp)]
      rfl
    rw [hdatos]
    rw [if_neg (by simp)]
    rfl

/-- C3 amended: for every record whose description is empty or
whitespace-only, the description validator does fail with the
empty-description code, but aplicar_validaciones appends that code to
the record's advertencias (warnings), not to its errores; the errores
list receives only the key, unit and coherence results, never the
empty-description code, so the record is not excluded from the clean
export on account of its empty description. -/
theorem claim_descripcion_vacia_enmendada (c : ConceptoExtraido)
    (hdesc : (pyStrip c.concepto_original).length = 0) :
    validar_concepto c.concepto_original = (false, some .conceptoVacio) ∧
    (aplicar_validaciones c).advertencias = c.advertencias ++ [.conceptoVacio] ∧
    (aplicar_validaciones c).errores =
      c.errores ++ errSi (validar_clave c.clave) ++ errSi (validar_unidad c.unidad) ++
        errSi (validar_coherencia c.cantidad c.precio_unitario c.importe) ∧
    (c.errores = [] → CodigoError.conceptoVacio ∉ (aplicar_validaciones c).errores) := by
  have hv : validar_concepto c.concepto_original = (false, some .conceptoVacio) := by
    unfold validar_concepto
    rw [if_pos (Or.inr hdesc)]
  refine ⟨hv, ?_, aplicar_errores c, ?_⟩
  · rw [aplicar_advertencias, hv]
    rfl
  · intro hvacio hmem
    rw [aplicar_errores, hvacio] at hmem
    simp only [List.nil_append, List.mem_append] at hmem
    rcases hmem with (h | h) | h
    · exact conceptoVacio_no_en_clave _ h
    · exact conceptoVacio_no_en_unidad _ h
    · exact conceptoVacio_no_en_coherencia _ _ _ h

/-- Witness for the amended C3 at the concrete empty-description
record: its warnings hold exactly the empty-description code and its
errores list stays empty. -/
theorem claim_descripcion_vacia_enmendada_testigo :
    (aplicar_validaciones registroDescripcionVacia).advertencias = [.conceptoVacio] ∧
    CodigoError.conceptoVacio ∉ (aplicar_validaciones registroDescripcionVacia).errores := by
  obtain ⟨-, h2, -, h4⟩ :=
    claim_descripcion_vacia_enmendada registroDescripcionVacia (by decide)
  exact ⟨h2, h4 rfl⟩

/-- C5: whenever the clean export is produced, it holds, for every
key, exactly the first-encountered projection of an error-free record
with that key (in corpus order) and nothing else; every row of the
export is the projection of some error-free record, so error-bearing
records are excluded; and the dropped-duplicate count is the number of
clean rows minus the number of exported rows. -/
theorem claim_deduplicacion_primera_aparicion
    (conceptos : List ConceptoExtraido) (filas : List FilaCSV) (duplicados : ℕ)
    (h : generar_csv_master conceptos = some (filas, duplicados)) :
    (∀ k : String,
      filas.filter (fun r => decide (r.clave = k)) =
        (((conceptos.filter (fun c => decide (c.errores = []))).map proyeccionCSV).filter
          (fun r => decide (r.clave = k))).take 1) ∧
    (∀ r ∈ filas, ∃ c ∈ conceptos, c.errores = [] ∧ proyeccionCSV c = r) ∧
    duplicados =
      ((conceptos.filter (fun c => decide (c.errores = []))).map proyeccionCSV).length -
        filas.length := by
  unfold generar_csv_master at h
  dsimp only at h
  split at h
  · exact absurd h (by simp)
  · split at h
    · exact absurd h (by simp)
    · simp only [Option.some.injEq, Prod.mk.injEq] at h
      obtain ⟨hfilas, hdup⟩ := h
      refine ⟨?_, ?_, ?_⟩
      · intro k
        rw [← hfilas, dedupPorClave_filter]
        simp [List.contains]
      · intro r hr
        have hmem := dedupPorClave_mem [] _ r (hfilas ▸ hr)
        obtain ⟨c, hc, hproj⟩ := List.mem_map.mp hmem
        exact ⟨c, (List.mem_filter.mp hc).1,
          by simpa using (List.mem_filter.mp hc).2, hproj⟩
      · rw [← hdup, ← hfilas]

/-- Witness for C5: feeding two clean records with the same key and
different descriptions yields exactly one exported row per key, the
first-encountered one. -/
theorem claim_deduplicacion_primera_aparicion_testigo :
    [proyeccionCSV registroLimpioA].filter (fun r => decide (r.clave = "HER-001")) =
      ((([registroLimpioA, registroLimpioB].filter
        (fun c => decide (c.errores = []))).map proyeccionCSV).filter
          (fun r => decide (r.clave = "HER-001"))).take 1 :=
  (claim_deduplicacion_primera_aparicion [registroLimpioA, registroLimpioB]
    [proyeccionCSV registroLimpioA] 1 (by decide)).1 "HER-001"

/-- C4: process_document short-circuits in the fixed order of its
steps, contributing zero records in every failing case: empty or
failed text extraction stops before all later steps; a failing
template gate yields the invalid result carrying the
template-not-valid code and the message listing the missing tokens; no
valid keys yields the no-valid-keys code; no collected records yields
the no-concepts code; otherwise the result is valid and every
collected record, error-bearing ones included, is handed to the corpus
aggregator. -/
theorem claim_procesar_documento_cortocircuito :
    (∀ doc : Documento, extraer_texto_completo_pdf doc = none →
      procesar_pdf doc = ({ resultadoInicial doc.nombre_archivo with
        mensaje := "No se pudo extraer texto del PDF" }, [])) ∧
    (∀ doc : Documento, extraer_texto_completo_pdf doc = some "" →
      procesar_pdf doc = ({ resultadoInicial doc.nombre_archivo with
        mensaje := "No se pudo extraer texto del PDF" }, [])) ∧
    (∀ (doc : Documento) (texto : String), extraer_texto_completo_pdf doc = some texto →
      texto ≠ "" → (validar_plantilla_remaa texto).1 = false →
      procesar_pdf doc = ({ resultadoInicial doc.nombre_archivo with
        es_plantilla_remaa := false,
        mensaje := (validar_plantilla_remaa texto).2,
        tipos_error := [.plantillaNoValida] }, [])) ∧
    (∀ (doc : Documento) (texto : String), extraer_texto_completo_pdf doc = some texto →
      texto ≠ "" → (validar_plantilla_remaa texto).1 = true →
      extraer_claves texto = [] →
      procesar_pdf doc = ({ resultadoInicial doc.nombre_archivo with
        es_plantilla_remaa := true,
        mensaje := "No se encontraron claves válidas en el PDF",
        tipos_error := [.sinClavesValidas] }, [])) ∧
    (∀ (doc : Documento) (texto : String) (paginas : List Pagina),
      extraer_texto_completo_pdf doc = some texto →
      texto ≠ "" → (validar_plantilla_remaa texto).1 = true →
      extraer_claves texto ≠ [] → doc.paginas = .ok paginas →
      conceptos_de_paginas paginas doc.nombre_archivo = [] →
      procesar_pdf doc = ({ resultadoInicial doc.nombre_archivo with
        es_plantilla_remaa := true,
        mensaje := "No se pudieron extraer conceptos válidos",
        tipos_error := [.sinConceptos] }, [])) ∧
    (∀ (doc : Documento) (texto : String) (paginas : List Pagina),
      extraer_texto_completo_pdf doc = some texto →
      texto ≠ "" → (validar_plantilla_remaa texto).1 = true →
      extraer_claves texto ≠ [] → doc.paginas = .ok paginas →
      conceptos_de_paginas paginas doc.nombre_archivo ≠ [] →
      (procesar_pdf doc).1.es_valido = true ∧
      (procesar_pdf doc).1.conceptos_extraidos =
        (conceptos_de_paginas paginas doc.nombre_archivo).length ∧
      (procesar_pdf doc).2 = conceptos_de_paginas paginas doc.nombre_archivo) := by
  refine ⟨procesar_pdf_sin_texto, procesar_pdf_texto_vacio,
    procesar_pdf_plantilla_no_valida, procesar_pdf_sin_claves,
    procesar_pdf_sin_conceptos, ?_⟩
  intro doc texto paginas h hne hg hc hp hcc
  obtain ⟨h1, -, -, h4, -, -, h7⟩ :=
    procesar_pdf_exitoso doc texto paginas h hne hg hc hp hcc
  exact ⟨h1, h4, h7⟩

/-- Witness for C4 at two concrete documents: one whose text
extraction fails, one whose text passes the gate but holds no valid
key; both produce the corresponding invalid result and contribute no
records. -/
theorem claim_procesar_documento_cortocircuito_testigo :
    procesar_pdf docTextoExcepcion = ({ resultadoInicial "doc2.pdf" with
      mensaje := "No se pudo extraer texto del PDF" }, []) ∧
    procesar_pdf docSinClavesEj = ({ resultadoInicial "doc5.pdf" with
      es_plantilla_remaa := true,
      mensaje := "No se encontraron claves válidas en el PDF",
      tipos_error := [.sinClavesValidas] }, []) :=
  ⟨claim_procesar_documento_cortocircuito.1 docTextoExcepcion (by decide),
   (claim_procesar_documento_cortocircuito.2.2.2.1 docSinClavesEj
      "CLAVE CONCEPTO UNID P.U. IMPORTE" (by decide) (by decide) (by decide) (by decide))⟩

/-- Counterexample to C6: for a document whose text extraction raises,
process_document returns an invalid result whose error-type list is
empty — it does not carry the processing-error code, contrary to the
claim's "document 2 raises during text extraction" scenario. -/
theorem claim_aislamiento_errores_contraejemplo :
    docTextoExcepcion.texto_paginas = .error "boom" ∧
    (procesar_pdf docTextoExcepcion).1.es_valido = false ∧
    (procesar_pdf docTextoExcepcion).1.tipos_error = [] ∧
    (procesar_pdf docTextoExcepcion).1.mensaje = "No se pudo extraer texto del PDF" :=
  ⟨rfl, by decide, by decide, by decide⟩

/-- C6 amended: no exception ever propagates out of process_document,
so the other documents of a run are processed exactly as if alone; a
document whose text extraction raises yields an invalid result with
the could-not-extract-text message, an empty error-type list (no
processing-error code) and no contributed records, while an exception
reaching process_document's own handler — one raised by the second
collaborator open — yields the invalid result carrying the
processing-error code. -/
theorem claim_aislamiento_errores_enmendada
    (d1 doc2 d3 : Documento) (e : String)
    (h2 : doc2.texto_paginas = .error e) :
    procesar_todos_los_pdfs [d1, doc2, d3] =
      ([(procesar_pdf d1).1, (procesar_pdf doc2).1, (procesar_pdf d3).1],
        (procesar_pdf d1).2 ++ (procesar_pdf doc2).2 ++ (procesar_pdf d3).2) ∧
    (procesar_pdf doc2).1.es_valido = false ∧
    (procesar_pdf doc2).1.tipos_error = [] ∧
    (procesar_pdf doc2).1.mensaje = "No se pudo extraer texto del PDF" ∧
    (procesar_pdf doc2).2 = [] ∧
    (∀ (doc : Documento) (texto err : String),
      extraer_texto_completo_pdf doc = some texto → texto ≠ "" →
      (validar_plantilla_remaa texto).1 = true → extraer_claves texto ≠ [] →
      doc.paginas = .error err →
      (procesar_pdf doc).1.es_valido = false ∧
      (procesar_pdf doc).1.tipos_error = [.errorProcesamiento] ∧
      (procesar_pdf doc).2 = []) := by
  have hnone : extraer_texto_completo_pdf doc2 = none := by
    unfold extraer_texto_completo_pdf
    rw [h2]
  have hdoc2 := procesar_pdf_sin_texto doc2 hnone
  refine ⟨?_, by simp [hdoc2, resultadoInicial], by simp [hdoc2, resultadoInicial],
    by simp [hdoc2, resultadoInicial], by simp [hdoc2, resultadoInicial], ?_⟩
  · unfold procesar_todos_los_pdfs
    simp [List.flatMap_cons]
  · intro doc texto err h hne hg hc hp
    have hx := procesar_pdf_excepcion_tablas doc texto err h hne hg hc hp
    rw [hx]
    exact ⟨rfl, rfl, rfl⟩

/-- Witness for the amended C6 at a concrete three-document run whose
middle document raises during text extraction: the run still produces
the three independent results in order. -/
theorem claim_aislamiento_errores_enmendada_testigo :
    procesar_todos_los_pdfs [docSinClavesEj, docTextoExcepcion, docSinPlantillaEj] =
      ([(procesar_pdf docSinClavesEj).1, (procesar_pdf docTextoExcepcion).1,
        (procesar_pdf docSinPlantillaEj).1],
       (procesar_pdf docSinClavesEj).2 ++ (procesar_pdf docTextoExcepcion).2 ++
        (procesar_pdf docSinPlantillaEj).2) ∧
    (procesar_pdf docTextoExcepcion).1.tipos_error = [] :=
  ⟨(claim_aislamiento_errores_enmendada docSinClavesEj docTextoExcepcion
      docSinPlantillaEj "boom" rfl).1,
   (claim_aislamiento_errores_enmendada docSinClavesEj docTextoExcepcion
      docSinPlantillaEj "boom" rfl).2.2.1⟩

/-- C7: the numeric cell cleaner is a total function that returns
absent on an absent or empty cell, returns absent exactly when the
stripped text (currency signs, commas and spaces removed) holds no
digit — hence no signed decimal token — and parses the first token
otherwise; the Table Scanner stores zero in the record for an absent
or unparsable quantity, unit-price or amount cell, and the coherence
validator then reports that zero as the corresponding positivity
error, not as a distinct missing-field error. -/
theorem claim_limpieza_numerica_cero :
    limpiar_valor_numerico none = none ∧
    limpiar_valor_numerico (some "") = none ∧
    (∀ s : String, limpiar_valor_numerico (some s) = none ↔
      ∀ c ∈ caracteresLimpios s, esDigito c = false) ∧
    limpiar_valor_numerico (some "$1,234.50") = some (2469 / 2) ∧
    limpiar_valor_numerico (some "abc") = none ∧
    (∀ (tabla : List Fila) (nombre : String) (i : ℕ),
      (construirConcepto tabla nombre i).cantidad = (cantidadCruda tabla i).getD 0 ∧
      (construirConcepto tabla nombre i).precio_unitario = (precioCrudo tabla i).getD 0 ∧
      (construirConcepto tabla nombre i).importe = (importeCrudo tabla i).getD 0) ∧
    (∀ (tabla : List Fila) (nombre : String) (i : ℕ), cantidadCruda tabla i = none →
      (construirConcepto tabla nombre i).cantidad = 0 ∧
      CodigoError.cantidadInvalida ∈ (construirConcepto tabla nombre i).errores) ∧
    (∀ (tabla : List Fila) (nombre : String) (i : ℕ), precioCrudo tabla i = none →
      0 < (cantidadCruda tabla i).getD 0 →
      CodigoError.precioInvalido ∈ (construirConcepto tabla nombre i).errores) ∧
    (∀ (tabla : List Fila) (nombre : String) (i : ℕ), importeCrudo tabla i = none →
      0 < (cantidadCruda tabla i).getD 0 → 0 < (precioCrudo tabla i).getD 0 →
      CodigoError.importeInvalido ∈ (construirConcepto tabla nombre i).errores) := by
  refine ⟨rfl, rfl, limpiar_none_iff, ?_, rfl, construirConcepto_numeros, ?_, ?_, ?_⟩
  · simp +decide [limpiar_valor_numerico, caracteresLimpios, pyStrip, truthy, cellStr,
      buscarNumero, valorToken, digitosANat, esDigito]
    norm_num
  · intro tabla nombre i hq
    have hz : (cantidadCruda tabla i).getD 0 = 0 := by rw [hq]; rfl
    refine ⟨by rw [(construirConcepto_numeros tabla nombre i).1, hz], ?_⟩
    apply construirConcepto_error_coherencia
    rw [hz, coherencia_cantidad_no_positiva _ _ _ (le_refl 0)]
    simp [errSi]
  · intro tabla nombre i hp hq
    have hz : (precioCrudo tabla i).getD 0 = 0 := by rw [hp]; rfl
    apply construirConcepto_error_coherencia
    rw [hz, coherencia_precio_no_positivo _ _ _ hq (le_refl 0)]
    simp [errSi]
  · intro tabla nombre i hi hq hp
    have hz : (importeCrudo tabla i).getD 0 = 0 := by rw [hi]; rfl
    apply construirConcepto_error_coherencia
    rw [hz, coherencia_importe_no_positivo _ _ _ hq hp (le_refl 0)]
    simp [errSi]

/-- Witness for C7: in a concrete table whose quantity cell reads
"n/a", the emitted record stores quantity zero and carries the
invalid-quantity code. -/
theorem claim_limpieza_numerica_cero_testigo :
    (construirConcepto
        [[some "CLAVE", some "CONCEPTO"],
         [some "HER-001", some "Suministro largo de prueba", some "PZS",
          some "n/a", some "50", some "500"]] "x.pdf" 1).cantidad = 0 ∧
    CodigoError.cantidadInvalida ∈
      (construirConcepto
        [[some "CLAVE", some "CONCEPTO"],
         [some "HER-001", some "Suministro largo de prueba", some "PZS",
          some "n/a", some "50", some "500"]] "x.pdf" 1).errores :=
  claim_limpieza_numerica_cero.2.2.2.2.2.2.1
    [[some "CLAVE", some "CONCEPTO"],
     [some "HER-001", some "Suministro largo de prueba", some "PZS",
      some "n/a", some "50", some "500"]] "x.pdf" 1 (by decide)

/-- C8: the template gate is valid exactly when all five required
header tokens occur anywhere in the upper-cased text, in any order and
any input case; on failure its message lists exactly the missing
tokens, a text missing only P.U. reporting exactly that token; and a
failing gate short-circuits the document, which becomes invalid
carrying the template-not-valid code, with no records contributed. -/
theorem claim_plantilla_presencia_tokens :
    (∀ texto : String, (validar_plantilla_remaa texto).1 = true ↔
      ∀ p ∈ PALABRAS_CLAVE_REMAA, subEn p.data (pyUpper texto).data = true) ∧
    (∀ texto : String, (validar_plantilla_remaa texto).1 = true ↔
      palabras_faltantes texto = []) ∧
    (∀ texto : String, (validar_plantilla_remaa texto).1 = false →
      (validar_plantilla_remaa texto).2 =
        "✗ PLANTILLA_NO_VALIDA - Faltan: " ++ pyJoin ", " (palabras_faltantes texto)) ∧
    palabras_faltantes "CLAVE CONCEPTO UNID IMPORTE cant" = ["P.U."] ∧
    (validar_plantilla_remaa "clave concepto unid p.u. importe").1 = true ∧
    (∀ (doc : Documento) (texto : String), extraer_texto_completo_pdf doc = some texto →
      texto ≠ "" → (validar_plantilla_remaa texto).1 = false →
      procesar_pdf doc = ({ resultadoInicial doc.nombre_archivo with
        es_plantilla_remaa := false,
        mensaje := (validar_plantilla_remaa texto).2,
        tipos_error := [.plantillaNoValida] }, [])) := by
  refine ⟨?_, ?_, ?_, by decide, by decide, procesar_pdf_plantilla_no_valida⟩
  · exact validar_plantilla_pasa_iff
  · intro texto
    rw [validar_plantilla_pasa_iff, palabras_faltantes_vacia_iff]
  · intro texto hf
    unfold validar_plantilla_remaa at hf ⊢
    split at hf
    · exact absurd hf (by simp)
    · rw [if_neg (by assumption)]

/-- Witness for C8 at a document whose text lacks every header token:
the gate fails and the document result carries the template code with
no records. -/
theorem claim_plantilla_presencia_tokens_testigo :
    procesar_pdf docSinPlantillaEj = ({ resultadoInicial "doc4.pdf" with
      es_plantilla_remaa := false,
      mensaje := (validar_plantilla_remaa "hola mundo").2,
      tipos_error := [.plantillaNoValida] }, []) :=
  claim_plantilla_presencia_tokens.2.2.2.2.2 docSinPlantillaEj "hola mundo"
    (by decide) (by decide) (by decide)
